import Mathlib

/-
Verification of the `@aws-cdk/aws-wafv2` construct library (web-acl.ts,
rule-group.ts, logging-configuration.ts) against its natural-language
specification.  The TypeScript is embedded shallowly: the pure
record-building parts of the constructors and static builders become Lean
functions over explicit record types.  JavaScript objects handed to
`WebACL.prioritizeRules` (typed `any[]` in the source) are modelled with an
`oid` field standing for reference identity, since `Array.prototype.indexOf`
compares with `===`; distinct objects carry distinct oids and the same
object passed twice repeats its oid.  Constructors are wrapped in `Except`
to record thrown validation errors; a constructor with no throw site always
returns `Except.ok`.
-/

namespace Wafv2

/-- web-acl.ts:18-30 — REGIONAL or CLOUDFRONT. -/
inductive Scope where
  | REGIONAL
  | CLOUDFRONT
deriving DecidableEq, Repr

/-- Opaque CfnWebACL.CustomRequestHandlingProperty payload; the library passes it through unmodified. -/
structure CustomRequestHandlingProperty where
  insertHeaders : List (String × String) := []
deriving DecidableEq, Repr

/-- Opaque CfnWebACL.CustomResponseProperty payload; passed through unmodified. -/
structure CustomResponseProperty where
  responseCode : Nat := 403
deriving DecidableEq, Repr

/-- CfnWebACL.DefaultActionProperty: the literals {allow: {customRequestHandling}} and {block: {customResponse}} built in web-acl.ts:35-57. -/
inductive DefaultActionProperty where
  | allow (customRequestHandling : Option CustomRequestHandlingProperty)
  | block (customResponse : Option CustomResponseProperty)
deriving DecidableEq, Repr

/-- web-acl.ts:39-46 — DefaultAction.allow. -/
def DefaultAction.allow (customRequestHandling : Option CustomRequestHandlingProperty) : DefaultActionProperty :=
  .allow customRequestHandling

/-- web-acl.ts:51-56 — DefaultAction.block. -/
def DefaultAction.block (customResponse : Option CustomResponseProperty) : DefaultActionProperty :=
  .block customResponse

/-- CfnWebACL.VisibilityConfigProperty. -/
structure VisibilityConfigProperty where
  cloudWatchMetricsEnabled : Bool
  metricName : String
  sampledRequestsEnabled : Bool
deriving DecidableEq, Repr

/-- CfnWebACL.ExcludedRuleProperty. -/
structure ExcludedRuleProperty where
  name : String
deriving DecidableEq, Repr

/-- Opaque CfnWebACL.StatementProperty scope-down payload; passed through unmodified. -/
structure CfnStatementProperty where
  raw : String := ""
deriving DecidableEq, Repr

/-- Opaque CfnWebACL.ManagedRuleGroupConfigProperty payload; passed through unvalidated. -/
structure ManagedRuleGroupConfigProperty where
  raw : String := ""
deriving DecidableEq, Repr

/-- Opaque CfnWebACL.CaptchaConfigProperty payload; passed through unmodified. -/
structure CaptchaConfigProperty where
  immunityTimeSeconds : Nat := 300
deriving DecidableEq, Repr

/-- The override-action literal built in rule-group.ts:324 and :344 — either {count: {}} or {none: {}}. -/
inductive OverrideActionProperty where
  | count
  | none
deriving DecidableEq, Repr

/-- The managedRuleGroupStatement object built in rule-group.ts:327-332 and :347-355; fields absent from the literal are `Option.none`. -/
structure ManagedRuleGroupStatementProperty where
  vendorName : String
  name : String
  excludedRules : Option (List ExcludedRuleProperty) := Option.none
  scopeDownStatement : Option CfnStatementProperty := Option.none
  managedRuleGroupConfigs : Option (List ManagedRuleGroupConfigProperty) := Option.none
  version : Option String := Option.none
deriving DecidableEq, Repr

/-- The statement wrapper {managedRuleGroupStatement: ...}. -/
structure RuleStatementProperty where
  managedRuleGroupStatement : ManagedRuleGroupStatementProperty
deriving DecidableEq, Repr

/-- The rule record returned by ManagedRuleGroup.aws / ManagedRuleGroup.thirdParty (rule-group.ts:325-339, :345-363). -/
structure ManagedRuleGroupRecord where
  name : String
  statement : RuleStatementProperty
  visibilityConfig : VisibilityConfigProperty
  overrideAction : OverrideActionProperty
deriving DecidableEq, Repr

/-- rule-group.ts:67-103 — ManagedRuleGroupProps (all fields optional). -/
structure ManagedRuleGroupProps where
  name : Option String := Option.none
  visibilityConfig : Option VisibilityConfigProperty := Option.none
  overrideToCount : Option Bool := Option.none
  excludedRules : Option (List ExcludedRuleProperty) := Option.none
  scopeDownStatement : Option CfnStatementProperty := Option.none
  version : Option String := Option.none
  managedRuleGroupConfigs : Option (List ManagedRuleGroupConfigProperty) := Option.none
deriving DecidableEq, Repr

/-- rule-group.ts:105-110 — adds the AWS managed rule group name. -/
structure ManagedRuleGroupAWSProps extends ManagedRuleGroupProps where
  rule : String
deriving DecidableEq, Repr

/-- rule-group.ts:112-121 — adds the vendor and rule name. -/
structure ManagedRuleGroupThirdPartyProps extends ManagedRuleGroupProps where
  vendor : String
  ruleName : String
deriving DecidableEq, Repr

/-- JavaScript `a || b` for an optional string `a`: undefined and the empty string are falsy. -/
def jsOrString (a : Option String) (b : String) : String :=
  match a with
  | some s => if s = "" then b else s
  | Option.none => b

/-- JavaScript truthiness of an optional boolean, as in `props.overrideToCount ? x : y`: undefined and false are falsy. -/
def jsTruthy (a : Option Bool) : Bool :=
  a.getD false

/-- rule-group.ts:343-365 — ManagedRuleGroup.aws. -/
def ManagedRuleGroup.aws (props : ManagedRuleGroupAWSProps) : ManagedRuleGroupRecord :=
  let overrideAction : OverrideActionProperty :=
    if jsTruthy props.overrideToCount then .count else .none
  { name := jsOrString props.name props.rule
    statement :=
      { managedRuleGroupStatement :=
          { vendorName := "AWS"
            name := props.rule
            excludedRules := props.excludedRules
            scopeDownStatement := props.scopeDownStatement
            managedRuleGroupConfigs := props.managedRuleGroupConfigs
            version := props.version } }
    visibilityConfig := props.visibilityConfig.getD
      { cloudWatchMetricsEnabled := true
        metricName := "WAF-" ++ props.rule
        sampledRequestsEnabled := true }
    overrideAction := overrideAction }

/-- rule-group.ts:323-341 — ManagedRuleGroup.thirdParty; the statement literal carries only vendorName and name. -/
def ManagedRuleGroup.thirdParty (props : ManagedRuleGroupThirdPartyProps) : ManagedRuleGroupRecord :=
  let overrideAction : OverrideActionProperty :=
    if jsTruthy props.overrideToCount then .count else .none
  { name := jsOrString props.name (props.vendor ++ "-" ++ props.ruleName)
    statement :=
      { managedRuleGroupStatement :=
          { vendorName := props.vendor
            name := props.ruleName } }
    visibilityConfig := props.visibilityConfig.getD
      { cloudWatchMetricsEnabled := true
        metricName := "WAF-" ++ props.vendor ++ "-" ++ props.ruleName
        sampledRequestsEnabled := true }
    overrideAction := overrideAction }

/-- An element of the `rules` array handed to WebACL.prioritizeRules (typed `any[]` at web-acl.ts:309).  `oid` models the object reference compared by `===`; `priority` models an own `priority` property of the record when one is present; `fields` holds the remaining enumerable own properties. -/
structure RuleInput where
  oid : Nat
  priority : Option Int := Option.none
  fields : ManagedRuleGroupRecord
deriving DecidableEq, Repr

/-- Helper for Array.prototype.indexOf: index of the first strict-equality occurrence from offset i, or -1. -/
def jsIndexOfAux (x : RuleInput) : List RuleInput → Int → Int
  | [], _ => -1
  | y :: ys, i => if y = x then i else jsIndexOfAux x ys (i + 1)

/-- Array.prototype.indexOf with strict equality, as called at web-acl.ts:314. -/
def jsIndexOf (xs : List RuleInput) (x : RuleInput) : Int :=
  jsIndexOfAux x xs 0

/-- CfnWebACL.RuleProperty as produced by the literal {priority: rules.indexOf(rule), ...rule} (web-acl.ts:313-316).  The spread follows the priority key, so an own priority property of the input overwrites the computed one; every other own property is copied unchanged. -/
structure RuleProperty where
  priority : Int
  fields : ManagedRuleGroupRecord
deriving DecidableEq, Repr

/-- web-acl.ts:309-322 — WebACL.prioritizeRules: for each rule build {priority: rules.indexOf(rule), ...rule}; an undefined rules array yields []. -/
def WebACL.prioritizeRules (rules : Option (List RuleInput)) : List RuleProperty :=
  match rules with
  | some rs =>
      rs.map (fun rule =>
        { priority := rule.priority.getD (jsIndexOf rs rule)
          fields := rule.fields })
  | Option.none => []

/-- web-acl.ts:79-133 — WebACLProps. -/
structure WebACLProps where
  webAclName : Option String := Option.none
  description : Option String := Option.none
  scope : Scope
  defaultAction : Option DefaultActionProperty := Option.none
  visibilityConfig : Option VisibilityConfigProperty := Option.none
  rules : Option (List RuleInput) := Option.none
  captchaConfig : Option CaptchaConfigProperty := Option.none
  tokenDomains : Option (List String) := Option.none
deriving DecidableEq, Repr

/-- The property record handed to `new CfnWebACL(this, 'Resource', ...)` at web-acl.ts:208-218. -/
structure CfnWebACLProps where
  scope : Scope
  defaultAction : DefaultActionProperty
  visibilityConfig : VisibilityConfigProperty
  description : Option String
  name : Option String
  rules : List RuleProperty
  captchaConfig : Option CaptchaConfigProperty
deriving DecidableEq, Repr

/-- web-acl.ts:194-232 — the property assembly performed by the WebACL constructor: defaultAction falls back to DefaultAction.allow() (`||` on an always-truthy object), rules are prioritized, and the visibility configuration is the hard-coded constant at web-acl.ts:202-206 (props.visibilityConfig is never read).  The Except layer records thrown validation errors; this constructor contains no throw site, so every input emits the resource. -/
def WebACL.construct (props : WebACLProps) : Except String CfnWebACLProps :=
  let defaultAction := props.defaultAction.getD (DefaultAction.allow Option.none)
  let prioritizedRules := WebACL.prioritizeRules props.rules
  let visibilityConfig : VisibilityConfigProperty :=
    { cloudWatchMetricsEnabled := true
      metricName := "WAF-Default"
      sampledRequestsEnabled := true }
  Except.ok
    { scope := props.scope
      defaultAction := defaultAction
      visibilityConfig := visibilityConfig
      description := props.description
      name := props.webAclName
      rules := prioritizedRules
      captchaConfig := props.captchaConfig }

/-- rule-group.ts:416-429 — RuleGroupProps; `capacity` is a required field (the TODO at rule-group.ts:417 to default it to the sum of the rules' capacity is unimplemented). -/
structure RuleGroupProps where
  capacity : Nat
  description : Option String := Option.none
  name : Option String := Option.none
  rules : Option (List RuleInput) := Option.none
  scope : Scope
  visibilityConfig : VisibilityConfigProperty
deriving DecidableEq, Repr

/-- The property record handed to `new CfnRuleGroup(this, 'Resource', ...)` at rule-group.ts:454-463. -/
structure CfnRuleGroupProps where
  capacity : Nat
  scope : Scope
  visibilityConfig : VisibilityConfigProperty
  description : Option String
  name : Option String
  rules : Option (List RuleInput)
deriving DecidableEq, Repr

/-- rule-group.ts:451-471 — the RuleGroup constructor passes every prop through to the resource unchanged; it computes nothing, validates nothing and contains no throw site. -/
def RuleGroup.construct (props : RuleGroupProps) : Except String CfnRuleGroupProps :=
  Except.ok
    { capacity := props.capacity
      scope := props.scope
      visibilityConfig := props.visibilityConfig
      description := props.description
      name := props.name
      rules := props.rules }

/-- Modelled from the spec: the §4.4 `computeCapacity(rules)` contract is absent from the source (rule-group.ts:417 leaves it as a TODO); it sums an injected per-rule unit cost over the rules sequence. -/
def computeCapacity (cost : RuleInput → Nat) (rules : List RuleInput) : Nat :=
  (rules.map cost).sum

/-- rule-group.ts:603-606 — ForwardedIPConfiguration. -/
structure ForwardedIPConfiguration where
  fallbackBehavior : String
  headerName : String
deriving DecidableEq, Repr

/-- rule-group.ts:595-598 with :611-614 — GeoMatchProps. -/
structure GeoMatchProps where
  negate : Option Bool := Option.none
  countryCodes : List String
  forwardedIpConfiguration : Option ForwardedIPConfiguration := Option.none
deriving DecidableEq, Repr

/-- The inner {CountryCodes: ...} literal of rule-group.ts:625-627. -/
structure GeoMatchStatementInner where
  CountryCodes : List String
deriving DecidableEq, Repr

/-- The object literal built by Statement.geoMatch: {GeoMatchStatement: {CountryCodes}, ...props.forwardedIpConfiguration}; spreading an undefined config adds nothing, spreading a present one copies its two properties to the top level. -/
structure GeoMatchStatementRecord where
  GeoMatchStatement : GeoMatchStatementInner
  fallbackBehavior : Option String := Option.none
  headerName : Option String := Option.none
deriving DecidableEq, Repr

/-- rule-group.ts:623-631 — Statement.geoMatch; no throw site. -/
def Statement.geoMatch (props : GeoMatchProps) : Except String GeoMatchStatementRecord :=
  Except.ok
    { GeoMatchStatement := { CountryCodes := props.countryCodes }
      fallbackBehavior := props.forwardedIpConfiguration.map ForwardedIPConfiguration.fallbackBehavior
      headerName := props.forwardedIpConfiguration.map ForwardedIPConfiguration.headerName }

/-- logging-configuration.ts — KEEP or DROP. -/
inductive LoggingFilterBehavior where
  | KEEP
  | DROP
deriving DecidableEq, Repr

/-- logging-configuration.ts — MEETS_ANY or MEETS_ALL. -/
inductive LoggingFilterRequirement where
  | MEETS_ANY
  | MEETS_ALL
deriving DecidableEq, Repr

/-- logging-configuration.ts — the action values usable in an ActionCondition. -/
inductive LoggingFilterActionConditionAction where
  | ALLOW
  | BLOCK
  | COUNT
  | CAPTCHA
  | CHALLENGE
  | EXCLUDED_AS_COUNT
deriving DecidableEq, Repr

/-- The condition literals built by LoggingFilterCondition.action / .labelName: {ActionCondition: {Action}} and {LabelNameCondition: {LabelName}}. -/
inductive LoggingFilterCondition where
  | actionCondition (Action : LoggingFilterActionConditionAction)
  | labelNameCondition (LabelName : String)
deriving DecidableEq, Repr

/-- logging-configuration.ts — LoggingFilterCondition.action. -/
def LoggingFilterCondition.action (a : LoggingFilterActionConditionAction) : LoggingFilterCondition :=
  .actionCondition a

/-- logging-configuration.ts — LoggingFilterCondition.labelName. -/
def LoggingFilterCondition.labelName (l : String) : LoggingFilterCondition :=
  .labelNameCondition l

/-- The filter record {Requirement, Conditions, Behavior}. -/
structure LoggingFilterRecord where
  Requirement : LoggingFilterRequirement
  Conditions : List LoggingFilterCondition
  Behavior : LoggingFilterBehavior
deriving DecidableEq, Repr

/-- logging-configuration.ts — LoggingFilter.keepIfMeetsAny. -/
def LoggingFilter.keepIfMeetsAny (conditions : List LoggingFilterCondition) : LoggingFilterRecord :=
  { Requirement := .MEETS_ANY, Conditions := conditions, Behavior := .KEEP }

/-- logging-configuration.ts — LoggingFilter.keepIfMeetsAll. -/
def LoggingFilter.keepIfMeetsAll (conditions : List LoggingFilterCondition) : LoggingFilterRecord :=
  { Requirement := .MEETS_ALL, Conditions := conditions, Behavior := .KEEP }

/-- logging-configuration.ts — LoggingFilter.dropIfMeetsAny. -/
def LoggingFilter.dropIfMeetsAny (conditions : List LoggingFilterCondition) : LoggingFilterRecord :=
  { Requirement := .MEETS_ANY, Conditions := conditions, Behavior := .DROP }

/-- logging-configuration.ts — LoggingFilter.dropIfMeetsAll. -/
def LoggingFilter.dropIfMeetsAll (conditions : List LoggingFilterCondition) : LoggingFilterRecord :=
  { Requirement := .MEETS_ALL, Conditions := conditions, Behavior := .DROP }

/-- The filter-configuration record {DefaultBehavior, Filters}. -/
structure LoggingFilterConfigurationRecord where
  DefaultBehavior : LoggingFilterBehavior
  Filters : List LoggingFilterRecord
deriving DecidableEq, Repr

/-- logging-configuration.ts — LoggingFilterConfiguration.defaultKeep. -/
def LoggingFilterConfiguration.defaultKeep (filters : List LoggingFilterRecord) : LoggingFilterConfigurationRecord :=
  { DefaultBehavior := .KEEP, Filters := filters }

/-- logging-configuration.ts — LoggingFilterConfiguration.defaultDrop. -/
def LoggingFilterConfiguration.defaultDrop (filters : List LoggingFilterRecord) : LoggingFilterConfigurationRecord :=
  { DefaultBehavior := .DROP, Filters := filters }

/-- logging-configuration.ts:395-407 — the filter applied by the LoggingConfiguration constructor: props.loggingFilter when given (`||` on an always-truthy object), otherwise defaultDrop with one keepIfMeetsAny filter on Action(BLOCK) and Action(COUNT).  This follows the multi-destination revision of the file, the one the package README documents ("By default, blocked and counted requests are logged"); an earlier revision concatenated into the same source file keeps only BLOCK. -/
def LoggingConfiguration.appliedLoggingFilter
    (propsLoggingFilter : Option LoggingFilterConfigurationRecord) : LoggingFilterConfigurationRecord :=
  propsLoggingFilter.getD
    (LoggingFilterConfiguration.defaultDrop
      [LoggingFilter.keepIfMeetsAny
        [LoggingFilterCondition.action .BLOCK,
         LoggingFilterCondition.action .COUNT]])

/-- Modelled from the spec: a log record as seen by the filter policy — the action the web ACL applied to the request and the labels attached to it (§3 LoggingConfiguration, §4.6).  Filter evaluation happens in the external service, not in this package. -/
structure LogRecord where
  action : LoggingFilterActionConditionAction
  labels : List String
deriving DecidableEq, Repr

/-- Modelled from the spec: whether one condition is met by a log record. -/
def conditionMet (r : LogRecord) : LoggingFilterCondition → Bool
  | .actionCondition a => decide (a = r.action)
  | .labelNameCondition l => r.labels.contains l

/-- Modelled from the spec: MEETS_ANY / MEETS_ALL applicability of one filter. -/
def filterApplies (r : LogRecord) (f : LoggingFilterRecord) : Bool :=
  match f.Requirement with
  | .MEETS_ANY => f.Conditions.any (conditionMet r)
  | .MEETS_ALL => f.Conditions.all (conditionMet r)

/-- Modelled from the spec: a filter policy keeps or drops a record — the first applicable filter in order decides, otherwise the default behavior applies. -/
def evalFilterPolicy (cfg : LoggingFilterConfigurationRecord) (r : LogRecord) : LoggingFilterBehavior :=
  match cfg.Filters.find? (filterApplies r) with
  | some f => f.Behavior
  | Option.none => cfg.DefaultBehavior

/-- A concrete managed-rule-group record built by the source builder, reused as test input. -/
def sampleRecord : ManagedRuleGroupRecord :=
  ManagedRuleGroup.aws { rule := "AWSManagedRulesCommonRuleSet" }

/-- A concrete rule object (no own priority property). -/
def sampleRule : RuleInput :=
  { oid := 0, fields := sampleRecord }

/-- A concrete rule object that carries its own priority property. -/
def rulePriority7 : RuleInput :=
  { oid := 0, priority := some 7, fields := sampleRecord }

/-- A rule object named "X". -/
def ruleNamedX0 : RuleInput :=
  { oid := 0, fields := ManagedRuleGroup.aws { rule := "X" } }

/-- A second, distinct rule object also named "X". -/
def ruleNamedX1 : RuleInput :=
  { oid := 1, fields := ManagedRuleGroup.aws { rule := "X" } }

/-- C1: the claim says the rule at position i always receives priority i with no two outputs sharing a priority; but when the same rule object occurs at positions 0 and 1, `rules.indexOf(rule)` returns the first occurrence for both, so both outputs get priority 0 — position 1 does not receive priority 1 and the output priorities are not pairwise distinct. -/
theorem prioritizeRules_duplicate_reference_eval :
    (WebACL.prioritizeRules (some [sampleRule, sampleRule])).map RuleProperty.priority = [0, 0]
    ∧ ¬ ((WebACL.prioritizeRules (some [sampleRule, sampleRule])).map RuleProperty.priority).Nodup := by
  constructor
  · rfl
  · decide

/-- C2: priority assignment is a deterministic function of the input sequence alone — two aggregation runs over the same unreordered rules sequence yield identical priority assignments (WebACL.prioritizeRules is the pure function translated from web-acl.ts:309-322). -/
theorem prioritizeRules_deterministic (r1 r2 : Option (List RuleInput)) (h : r1 = r2) :
    (WebACL.prioritizeRules r1).map RuleProperty.priority
      = (WebACL.prioritizeRules r2).map RuleProperty.priority := by
  rw [h]

/-- Witness for C2 at the concrete one-element rules sequence. -/
theorem prioritizeRules_deterministic_witness :
    (WebACL.prioritizeRules (some [sampleRule])).map RuleProperty.priority
      = (WebACL.prioritizeRules (some [sampleRule])).map RuleProperty.priority :=
  prioritizeRules_deterministic (some [sampleRule]) (some [sampleRule]) rfl

/-- C3 counterexample: a WebACL whose rules sequence holds two distinct rules both named "X" is not rejected — construction succeeds and the emitted resource contains both identically named rules, so no validation error is raised before the resource is emitted. -/
theorem webACL_duplicate_names_accepted :
    (WebACL.construct
        { scope := .REGIONAL, rules := some [ruleNamedX0, ruleNamedX1] }).toOption.map
      (fun out => out.rules.map (fun r => r.fields.name))
      = some ["X", "X"] := by
  rfl

/-- C3 amended: WebACL construction never fails — the constructor performs no duplicate-name validation, and the emitted resource carries every input rule, duplicates included; identically named rules in two different WebACLs likewise both succeed. -/
theorem webACL_construct_never_fails (props : WebACLProps) :
    ∃ out, WebACL.construct props = Except.ok out
      ∧ out.rules.map RuleProperty.fields = (props.rules.getD []).map RuleInput.fields := by
  refine ⟨_, rfl, ?_⟩
  cases props.rules with
  | none => rfl
  | some rs => simp [WebACL.prioritizeRules, List.map_map, Function.comp]

/-- C4 counterexample: with an explicit capacity of 0 and one rule whose injected unit cost is 1, the computed sum 1 exceeds the explicit capacity, yet RuleGroup construction succeeds and preserves capacity 0 — no capacity error is raised. -/
theorem ruleGroup_capacity_not_validated :
    computeCapacity (fun _ => 1) [sampleRule] = 1
    ∧ (RuleGroup.construct
        { capacity := 0
          scope := .REGIONAL
          rules := some [sampleRule]
          visibilityConfig :=
            { cloudWatchMetricsEnabled := true
              metricName := "m"
              sampledRequestsEnabled := true } }).toOption.map CfnRuleGroupProps.capacity
      = some 0 := by
  exact ⟨rfl, rfl⟩

/-- C4 amended: capacity is a required property (so no computed default can apply), and the RuleGroup constructor validates nothing — for every props it succeeds and the explicit capacity value is preserved unchanged. -/
theorem ruleGroup_construct_preserves_capacity (props : RuleGroupProps) :
    ∃ out, RuleGroup.construct props = Except.ok out ∧ out.capacity = props.capacity :=
  ⟨_, rfl, rfl⟩

/-- C5: with no filter-policy override the applied policy is defaultBehavior DROP with exactly one filter {MEETS_ANY, [ActionCondition(BLOCK), ActionCondition(COUNT)], KEEP}; under the spec-modelled filter semantics it keeps exactly the log records whose action is BLOCK or COUNT and drops all else. -/
theorem loggingConfiguration_default_filter_policy :
    LoggingConfiguration.appliedLoggingFilter Option.none
      = { DefaultBehavior := .DROP
          Filters := [{ Requirement := .MEETS_ANY
                        Conditions := [.actionCondition .BLOCK, .actionCondition .COUNT]
                        Behavior := .KEEP }] }
    ∧ ∀ r : LogRecord,
        evalFilterPolicy (LoggingConfiguration.appliedLoggingFilter Option.none) r = .KEEP
          ↔ (r.action = .BLOCK ∨ r.action = .COUNT) := by
  constructor
  · rfl
  · intro r
    obtain ⟨a, ls⟩ := r
    cases a <;>
      simp [LoggingConfiguration.appliedLoggingFilter, LoggingFilterConfiguration.defaultDrop,
        LoggingFilter.keepIfMeetsAny, LoggingFilterCondition.action, evalFilterPolicy,
        filterApplies, conditionMet, List.find?]

/-- C6 counterexample: Statement.geoMatch with a zero-length country-code list does not fail at construction — it succeeds and returns a statement carrying the empty code list. -/
theorem geoMatch_empty_country_codes_accepted :
    Statement.geoMatch { countryCodes := [] }
      = Except.ok { GeoMatchStatement := { CountryCodes := [] } } := by
  rfl

/-- C6 amended: Statement.geoMatch is a pure total function with no structural validation — for every props, a zero-length country-code list included, it succeeds and returns a statement carrying exactly the given country codes. -/
theorem geoMatch_total_carries_codes (props : GeoMatchProps) :
    ∃ out, Statement.geoMatch props = Except.ok out
      ∧ out.GeoMatchStatement.CountryCodes = props.countryCodes :=
  ⟨_, rfl, rfl⟩

/-- C7: for both ManagedRuleGroup.aws and ManagedRuleGroup.thirdParty, the rule record's overrideAction is Count exactly when overrideToCount is passed as true, and None exactly otherwise (absent or false) — the inductive OverrideActionProperty has no third value. -/
theorem managedRuleGroup_overrideAction (p : ManagedRuleGroupAWSProps) (q : ManagedRuleGroupThirdPartyProps) :
    ((ManagedRuleGroup.aws p).overrideAction = .count ↔ p.overrideToCount = some true)
    ∧ ((ManagedRuleGroup.aws p).overrideAction = .none ↔ p.overrideToCount ≠ some true)
    ∧ ((ManagedRuleGroup.thirdParty q).overrideAction = .count ↔ q.overrideToCount = some true)
    ∧ ((ManagedRuleGroup.thirdParty q).overrideAction = .none ↔ q.overrideToCount ≠ some true) := by
  have haux : ∀ o : Option Bool,
      ((if jsTruthy o then OverrideActionProperty.count else OverrideActionProperty.none)
          = OverrideActionProperty.count ↔ o = some true)
      ∧ ((if jsTruthy o then OverrideActionProperty.count else OverrideActionProperty.none)
          = OverrideActionProperty.none ↔ o ≠ some true) := by
    intro o
    rcases o with _ | b
    · simp [jsTruthy]
    · cases b <;> simp [jsTruthy]
  exact ⟨(haux p.overrideToCount).1, (haux p.overrideToCount).2,
    (haux q.overrideToCount).1, (haux q.overrideToCount).2⟩

/-- C8: a WebACL constructed without an explicit defaultAction gets DefaultAction.allow() — Allow with no custom request handling; a supplied defaultAction is used unchanged. -/
theorem webACL_defaultAction_behavior (props : WebACLProps) :
    (props.defaultAction = Option.none →
      (WebACL.construct props).toOption.map CfnWebACLProps.defaultAction
        = some (DefaultActionProperty.allow Option.none))
    ∧ ∀ a : DefaultActionProperty, props.defaultAction = some a →
        (WebACL.construct props).toOption.map CfnWebACLProps.defaultAction = some a := by
  constructor
  · intro h
    simp [WebACL.construct, h, DefaultAction.allow, Except.toOption]
  · intro a h
    simp [WebACL.construct, h, Except.toOption]

/-- Witness for C8 at a concrete props with no defaultAction. -/
theorem webACL_defaultAction_behavior_witness :
    (WebACL.construct { scope := Scope.REGIONAL }).toOption.map CfnWebACLProps.defaultAction
      = some (DefaultActionProperty.allow Option.none) :=
  (webACL_defaultAction_behavior { scope := Scope.REGIONAL }).1 rfl

/-- C9: the visibility configuration emitted on the WebACL resource is the hard-coded constant {cloudWatchMetricsEnabled := true, metricName := "WAF-Default", sampledRequestsEnabled := true} for every props, and stays that constant when any visibilityConfig is supplied in the props (the supplied value is ignored). -/
theorem webACL_visibilityConfig_constant (props : WebACLProps) (vc : VisibilityConfigProperty) :
    (WebACL.construct props).toOption.map CfnWebACLProps.visibilityConfig
      = some { cloudWatchMetricsEnabled := true
               metricName := "WAF-Default"
               sampledRequestsEnabled := true }
    ∧ (WebACL.construct { props with visibilityConfig := some vc }).toOption.map
        CfnWebACLProps.visibilityConfig
      = some { cloudWatchMetricsEnabled := true
               metricName := "WAF-Default"
               sampledRequestsEnabled := true } := by
  exact ⟨rfl, rfl⟩

/-- C10: priority assignment preserves every field of the input record (the spread copies all own properties unchanged), and when the input record already carries its own priority property the spread — placed after the priority key — makes that pre-existing value, not the index-derived one, appear in the output. -/
theorem prioritizeRules_preserves_input_fields (rs : List RuleInput) (i : Nat) (r : RuleInput)
    (h : rs[i]? = some r) :
    ∃ out, (WebACL.prioritizeRules (some rs))[i]? = some out
      ∧ out.fields = r.fields
      ∧ ∀ p : Int, r.priority = some p → out.priority = p := by
  refine ⟨{ priority := r.priority.getD (jsIndexOf rs r), fields := r.fields }, ?_, rfl, ?_⟩
  · have hmap : WebACL.prioritizeRules (some rs)
        = rs.map (fun rule =>
            { priority := rule.priority.getD (jsIndexOf rs rule)
              fields := rule.fields }) := rfl
    rw [hmap, List.getElem?_map, h]
    rfl
  · intro p hp
    simp [hp]

/-- Witness for C10 at a one-element rules sequence whose rule carries its own priority 7. -/
theorem prioritizeRules_preserves_input_fields_witness :
    ∃ out, (WebACL.prioritizeRules (some [rulePriority7]))[0]? = some out
      ∧ out.fields = rulePriority7.fields
      ∧ ∀ p : Int, rulePriority7.priority = some p → out.priority = p :=
  prioritizeRules_preserves_input_fields [rulePriority7] 0 rulePriority7 rfl

end Wafv2
